import Mathlib

/-!
open311-api-sync.

A shallow embedding of `index.js` (the whole module): the `defaults` / `options`
objects with their magic setters and getters, `reset`, `preflight`, `post` and
`patch`.

Conventions of the embedding.

* JavaScript values that the module only inspects and forwards (payloads, callbacks,
  transport errors, responses, bodies) are `JsValue`s.
* The five configuration fields are typed as the JSDoc of `exports.defaults` types
  them (`Number`, `Boolean`, `String`), each of them possibly `undefined`.
* Objects that the module shares by reference (`exports.defaults`, `exports.options`,
  the copy `preflight` works on) live in a heap of options objects; a reference is an
  index into that heap.
* A callback is a function from its arguments to the `Trace` its invocation leaves:
  the requests handed to the HTTP client, the calls made to caller-supplied functions,
  and an uncaught exception if there is one.
* The HTTP client (`request`) is external: what it answers is a parameter, the
  `Completion` it passes to the handler.
* The lodash functions `_.isEmpty`, `_.isFunction` and `_.merge` are external too and
  are modelled from their documented behaviour on the values of the embedding.
-/

namespace Open311ApiSync

/-! ## JavaScript values -/

/-- A JavaScript value. An object has its own enumerable properties `props` and the
properties that can be read from it but are not enumerated as its own (`hidden`:
inherited through the prototype chain, or non-enumerable such as the `message` of an
`Error`). A function has a name that tells it apart, the value a call without arguments
returns, and its own enumerable properties. Numbers are the integers (status codes);
fractions, infinities and `NaN` are left out. -/
inductive JsValue where
  | undefined : JsValue
  | null : JsValue
  | bool (b : Bool) : JsValue
  | num (n : Int) : JsValue
  | str (s : String) : JsValue
  | arr (items : List JsValue) : JsValue
  | obj (props : List (String × JsValue)) (hidden : List (String × JsValue)) : JsValue
  | fn (name : String) (returns : JsValue) (props : List (String × JsValue)) : JsValue

namespace JsValue

/-- ToBoolean: the truthiness tested by `if (v)`, `!v`, `v && w` and `v ? a : b`. -/
def truthy : JsValue → Bool
  | undefined => false
  | null => false
  | bool b => b
  | num n => n != 0
  | str s => s != ""
  | arr _ => true
  | obj _ _ => true
  | fn _ _ _ => true

/-- Whether `v` is `undefined` or `null`, the two values on which reading a property
throws a `TypeError`. -/
def isNullish : JsValue → Bool
  | undefined => true
  | null => true
  | _ => false

/-- Property read `v[key]` on a value that is not nullish: on an object an own property
first, then an inherited or non-enumerable one, `undefined` when there is none; on a
primitive or an array, for a key that is neither an index nor `length`, `undefined`. -/
def get (v : JsValue) (key : String) : JsValue :=
  match v with
  | obj props hidden =>
    match props.lookup key with
    | some x => x
    | none => (hidden.lookup key).getD undefined
  | fn _ _ props => (props.lookup key).getD undefined
  | _ => undefined

/-- Write of `key` in a list of properties: the entry is replaced when the key is
there and added at the end otherwise. -/
def setEntry (key : String) (value : JsValue) :
    List (String × JsValue) → List (String × JsValue)
  | [] => [(key, value)]
  | (k, v) :: rest =>
    if k == key then (k, value) :: rest else (k, v) :: setEntry key value rest

/-- Property write `v[key] = value` on an object or a function (an own enumerable
property is created or replaced); on a primitive the write is dropped. -/
def set (v : JsValue) (key : String) (value : JsValue) : JsValue :=
  match v with
  | obj props hidden => obj (setEntry key value props) hidden
  | fn name returns props => fn name returns (setEntry key value props)
  | other => other

/-- Strict equality `v === n` with a number literal `n`. -/
def strictEqNum (v : JsValue) (n : Int) : Bool :=
  match v with
  | num k => k == n
  | _ => false

end JsValue

open JsValue

/-- `new Error(message)`: an object without own enumerable properties whose `message`
can be read. -/
def newError (message : String) : JsValue :=
  .obj [] [("message", .str message)]

/-! ## lodash -/

/-- `_.isFunction(value)`. -/
def isFunction : JsValue → Bool
  | .fn _ _ _ => true
  | _ => false

/-- The constant `MAX_SAFE_INTEGER` of lodash, `9007199254740991`. -/
def MAX_SAFE_INTEGER : Int := 9007199254740991

/-- The `isLength(value)` of lodash: a number that is an integer, greater than -1 and at
most `MAX_SAFE_INTEGER`. -/
def isLength : JsValue → Bool
  | .num n => decide (-1 < n) && decide (n ≤ MAX_SAFE_INTEGER)
  | _ => false

/-- `_.isEmpty(value)`. `null` and `undefined` are empty. An array-like value, one that
is not a function and whose `length` is a valid length, is judged by `!value.length`
when it is an array, a string, or has a `splice` function. Any other value is empty when
it has no own enumerable string keyed property (so numbers and booleans are empty, and
so is a function nobody put a property on). The branches for buffers, typed arrays,
`arguments` objects, maps, sets and prototype objects concern values that a `JsValue`
does not represent. -/
def isEmpty : JsValue → Bool
  | .undefined => true
  | .null => true
  | .bool _ => true
  | .num _ => true
  | .str s => s == ""
  | .arr items => items.isEmpty
  | .obj props hidden =>
    if isLength ((JsValue.obj props hidden).get "length") &&
        isFunction ((JsValue.obj props hidden).get "splice") then
      ((JsValue.obj props hidden).get "length").strictEqNum 0
    else props.isEmpty
  | .fn _ _ props => props.isEmpty

/-! ## Configuration: `defaults`, `options`, setters, getters, `reset` -/

/-- The local constant `SERVICE_REQUEST_URI`. -/
def SERVICE_REQUEST_URI : String := "/servicerequests"

/-- An options object: the five keys of `exports.defaults`, each holding a value of its
documented type or `undefined` (`none`), and the `headers` key that `preflight` adds to
its own copy (`none` while the key is not there). -/
structure Options where
  timeout : Option Int
  gzip : Option Bool
  baseUrl : Option String
  uri : Option String
  token : Option String
  headers : Option (List (String × String))
deriving DecidableEq, Repr

/-- The object literal assigned to `exports.defaults`. -/
def defaults : Options :=
  { timeout := some 600000
    gzip := some true
    baseUrl := none
    uri := some SERVICE_REQUEST_URI
    token := none
    headers := none }

/-- An object without any property: every read on it gives `undefined`. -/
def Options.empty : Options :=
  { timeout := none, gzip := none, baseUrl := none, uri := none, token := none,
    headers := none }

/-- A string-typed field read as a JavaScript value. -/
def ofString : Option String → JsValue
  | none => .undefined
  | some s => .str s

/-- The keys of `exports.options` when the module is loaded, `_.keys(exports.options)`:
one setter and one getter is defined on `exports` for each. -/
inductive Field where
  | timeout
  | gzip
  | baseUrl
  | uri
  | token
deriving DecidableEq, Repr

/-- A value assigned through one of the setters, `exports[option] = value`. -/
inductive Assignment where
  | timeout (value : Option Int)
  | gzip (value : Option Bool)
  | baseUrl (value : Option String)
  | uri (value : Option String)
  | token (value : Option String)
deriving DecidableEq, Repr

/-- The key an assignment writes. -/
def Assignment.field : Assignment → Field
  | .timeout _ => .timeout
  | .gzip _ => .gzip
  | .baseUrl _ => .baseUrl
  | .uri _ => .uri
  | .token _ => .token

/-- The value an assignment writes, as a JavaScript value. -/
def Assignment.value : Assignment → JsValue
  | .timeout (some n) => .num n
  | .timeout none => .undefined
  | .gzip (some b) => .bool b
  | .gzip none => .undefined
  | .baseUrl value => ofString value
  | .uri value => ofString value
  | .token value => ofString value

/-- The write `object[option] = value` on an options object. -/
def Options.assign (o : Options) : Assignment → Options
  | .timeout value => { o with timeout := value }
  | .gzip value => { o with gzip := value }
  | .baseUrl value => { o with baseUrl := value }
  | .uri value => { o with uri := value }
  | .token value => { o with token := value }

/-- The state of the module: the options objects allocated so far (a reference is an
index in `heap`) and the two exported references `exports.defaults` and
`exports.options`. -/
structure Module where
  heap : List Options
  defaults : Nat
  options : Nat

namespace Module

/-- The module once `index.js` is loaded: the object literal is allocated and
`exports.options = exports.defaults` makes both names refer to it. -/
def init : Module :=
  { heap := [Open311ApiSync.defaults], defaults := 0, options := 0 }

/-- The object a reference points to. -/
def read (m : Module) (ref : Nat) : Options :=
  m.heap.getD ref Options.empty

/-- `_.merge({}, source)`: a new object is allocated and every property of the object
`source` refers to is copied into it; the reference to the new object is returned. -/
def merge (m : Module) (source : Nat) : Module × Nat :=
  ({ m with heap := m.heap ++ [m.read source] }, m.heap.length)

/-- The write `object[option] = value` through a reference. -/
def write (m : Module) (ref : Nat) (a : Assignment) : Module :=
  { m with heap := m.heap.set ref ((m.read ref).assign a) }

/-- The write `object.headers = headers` through a reference. -/
def writeHeaders (m : Module) (ref : Nat) (headers : List (String × String)) : Module :=
  { m with heap := m.heap.set ref { m.read ref with headers := some headers } }

/-- The magic setter of a key:
`exports.options = _.merge({}, exports.options); exports.options[option] = value;`. -/
def set (m : Module) (a : Assignment) : Module :=
  let (m, copy) := m.merge m.options
  let m := { m with options := copy }
  m.write m.options a

/-- The live configuration, the object `exports.options` refers to. -/
def live (m : Module) : Options :=
  m.read m.options

/-- `exports.reset`. -/
def reset (m : Module) : Module :=
  { m with options := m.defaults }

end Module

/-! ## Callbacks and their effects -/

/-- An uncaught exception. The only ones the module can raise are the `TypeError`s of
calling a value that is not a function and of reading a property of `undefined` or
`null`. -/
inductive Exception where
  | typeError
deriving DecidableEq, Repr

/-- An argument passed to a caller-supplied function: a value, or the options object
`preflight` hands over on success. -/
inductive Arg where
  | value (v : JsValue)
  | options (o : Options)

/-- One invocation of a caller-supplied function. -/
structure Call where
  callee : JsValue
  args : List Arg

/-- The HTTP method the request is delegated with: `request.post` or `request.patch`. -/
inductive Method where
  | post
  | patch
deriving DecidableEq, Repr

/-- The `requestOptions` object built by `post` and `patch`, as the HTTP client reads
it: the five keys of the object literal and the key `timeout`, which the HTTP client
reads as well and which is `undefined` (`none`) as long as nothing sets it. -/
structure RequestOptions where
  timeout : Option Int
  baseUrl : Option String
  uri : Option String
  headers : Option (List (String × String))
  gzip : Option Bool
  json : JsValue

/-- A request handed to the HTTP client: the method it was delegated with and the
request options. -/
structure Request where
  method : Method
  options : RequestOptions

/-- What running a piece of the module leaves behind: the requests handed to the HTTP
client, the invocations of caller-supplied functions, both in order, and the uncaught
exception that ended the run, if any. -/
structure Trace where
  requests : List Request
  calls : List Call
  thrown : Option Exception

/-- Invocation `f(args)` of a caller-supplied value: recorded when `f` is a function,
a `TypeError` otherwise. -/
def invoke (f : JsValue) (args : List Arg) : Trace :=
  if isFunction f then { requests := [], calls := [⟨f, args⟩], thrown := none }
  else { requests := [], calls := [], thrown := some .typeError }

/-- The run that ends in a `TypeError` before anything else happened. -/
def throwTypeError : Trace :=
  { requests := [], calls := [], thrown := some .typeError }

/-- The callback of `preflight`, `function (error, options)`: `done(error)` passes no
options (`none`), `done(null, options)` passes the options object. -/
abbrev PreflightCallback := JsValue → Option Options → Trace

/-- A caller-supplied value used as the callback of `preflight`. -/
def userCallback (f : JsValue) : PreflightCallback :=
  fun error options =>
    match options with
    | none => invoke f [.value error]
    | some o => invoke f [.value error, .options o]

/-- What the HTTP client passes to the handler when the request completes:
`function (error, response, body)`. -/
structure Completion where
  error : JsValue
  response : JsValue
  body : JsValue

/-- The external HTTP client, `request.post(requestOptions, handler)` and
`request.patch(requestOptions, handler)`: the request is recorded and, the request
being assumed to complete, the handler is invoked with the completion. -/
def request (method : Method) (requestOptions : RequestOptions) (c : Completion)
    (handler : JsValue → JsValue → JsValue → Trace) : Trace :=
  let t := handler c.error c.response c.body
  { t with requests := ⟨method, requestOptions⟩ :: t.requests }

/-! ## `preflight`, `post`, `patch` -/

/-- String concatenation `prefix + value` with a string-typed field on the right
(`undefined` is converted to the string `undefined`). -/
def plus (pre : String) (value : Option String) : String :=
  match value with
  | some s => pre ++ s
  | none => pre ++ "undefined"

/-- `exports.preflight`. -/
def preflight (m : Module) (data : JsValue) (done : PreflightCallback) : Module × Trace :=
  -- normalize arguments
  let (data, done) :=
    if isFunction data then (JsValue.obj [] [], userCallback data) else (data, done)
  -- obtain options
  let (m, options) := m.merge m.options
  -- ensure server base url
  if isEmpty (ofString (m.read options).baseUrl) then
    (m, done (newError "Missing Server Base URL") none)
  -- ensure service request uri
  else if isEmpty (ofString (m.read options).uri) then
    (m, done (newError "Missing Service Request URI") none)
  -- ensure API token
  else if isEmpty (ofString (m.read options).token) then
    (m, done (newError "Missing API Token") none)
  else
    -- ensure data
    let data :=
      if data.truthy && isFunction (data.get "toObject") then data.get "toObject" else data
    if isEmpty data then
      (m, done (newError "Missing Service Request Data") none)
    else
      -- ensure default request headers
      let m := m.writeHeaders options
        [("Authorization", plus "Bearer " (m.read options).token),
         ("Accept", "application/json")]
      -- continue
      (m, done .null (some (m.read options)))

/-- The handler `post` gives to `request.post`. -/
def postHandler (done : JsValue) (error response body : JsValue) : Trace :=
  -- handle error
  if error.truthy then invoke done [.value error]
  else
    -- check if response succeed
    let isSuccess :=
      response.truthy &&
        ((response.get "statusCode").strictEqNum 201 ||
          (response.get "statusCode").strictEqNum 200)
    -- handle error response
    if !isSuccess then
      let error := newError "Fail to Sync Service Request"
      if response.isNullish then throwTypeError
      else
        let error := error.set "status" (response.get "statusCode")
        invoke done [.value error]
    -- handle success response
    else invoke done [.value .null, .value body]

/-- `exports.post`, with the completion the HTTP client answers the request with. -/
def post (m : Module) (data done : JsValue) (c : Completion) : Module × Trace :=
  -- run request pre-flight
  preflight m data fun error options =>
    -- back-off in case of error during pre-flight
    if error.truthy then invoke done [.value error]
    else
      match options with
      | none => throwTypeError
      | some options =>
        -- prepare post downstream http request options
        let requestOptions : RequestOptions :=
          { timeout := none
            baseUrl := options.baseUrl
            uri := options.uri
            headers := options.headers
            gzip := options.gzip
            json := data }
        -- post service request
        request .post requestOptions c (postHandler done)

/-- The handler `patch` gives to `request.patch`. -/
def patchHandler (done : JsValue) (error response body : JsValue) : Trace :=
  -- handle error
  if error.truthy then invoke done [.value error, .value response]
  else
    -- check if response succeed
    let isSuccess :=
      response.truthy &&
        ((response.get "statusCode").strictEqNum 201 ||
          (response.get "statusCode").strictEqNum 200)
    -- handle error response
    if !isSuccess then
      let error := newError "Fail to Sync Service Request"
      if response.isNullish then throwTypeError
      else
        let error := error.set "status" (response.get "statusCode")
        invoke done [.value error, .value response]
    -- handle success response
    else invoke done [.value .null, .value body, .value response]

/-- `exports.patch`, with the completion the HTTP client answers the request with. -/
def patch (m : Module) (data done : JsValue) (c : Completion) : Module × Trace :=
  -- run request pre-flight
  preflight m data fun error options =>
    -- back-off in case of error during pre-flight
    if error.truthy then invoke done [.value error]
    else
      match options with
      | none => throwTypeError
      | some options =>
        -- prepare patch downstream http request options
        let requestOptions : RequestOptions :=
          { timeout := none
            baseUrl := options.baseUrl
            uri := options.uri
            headers := options.headers
            gzip := options.gzip
            json := data }
        -- patch service request
        request .patch requestOptions c (patchHandler done)

/-- The magic getter of a key, `exports.options[option]`, read as a JavaScript
value. -/
def Module.get (m : Module) : Field → JsValue
  | .timeout =>
    match m.live.timeout with
    | some n => .num n
    | none => .undefined
  | .gzip =>
    match m.live.gzip with
    | some b => .bool b
    | none => .undefined
  | .baseUrl => ofString m.live.baseUrl
  | .uri => ofString m.live.uri
  | .token => ofString m.live.token

/-- A step of a caller configuring the module: an assignment through a setter, or a
call of `reset`. -/
inductive Op where
  | set (a : Assignment)
  | reset

/-- The module after one configuration step. -/
def Module.step (m : Module) : Op → Module
  | .set a => m.set a
  | .reset => m.reset

/-- The module after a sequence of configuration steps, first step first. -/
def Module.run (m : Module) (ops : List Op) : Module :=
  ops.foldl Module.step m

/-! ## The fixtures of the test-suite -/

/-- The module of the `post#success` and `post#error` tests: `sync.baseUrl = ...;
sync.token = ...;` on the freshly loaded module. -/
def configured : Module :=
  (Module.init.set (.baseUrl (some "http://localhost"))).set (.token (some "secret"))

/-- A payload that is a plain mapping with one entry, `{name: 'Jane'}`. -/
def card : JsValue :=
  .obj [("name", .str "Jane")] []

/-- A caller-supplied completion callback. -/
def callback : JsValue :=
  .fn "done" .undefined []

/-- A response object with the given status code. -/
def responseWith (statusCode : Int) : JsValue :=
  .obj [("statusCode", .num statusCode)] []

/-- A document in the way of an ODM: no own enumerable property and an inherited
`toObject` method that returns the plain mapping `{name: 'Jane'}`. -/
def document : JsValue :=
  .obj [] [("toObject", .fn "toObject" card [])]

/-- A document whose `toObject` method carries an own enumerable property of its own,
as the stubs and spies of test libraries do (`callCount`). -/
def stubbed : JsValue :=
  .obj [] [("toObject", .fn "toObject" card [("callCount", .num 0)])]

/-- A completion that carries neither a transport error nor a response. -/
def silent : Completion :=
  { error := .null, response := .undefined, body := .undefined }

/-- An array-like object of length 0, `{length: 0, splice: function () {}}`. -/
def arrayLike : JsValue :=
  .obj [("length", .num 0), ("splice", .fn "splice" .undefined [])] []

/-! ## Reading the heap -/

theorem Module.read_merge (m : Module) (source : Nat) :
    (m.merge source).1.read (m.merge source).2 = m.read source := by
  simp [Module.merge, Module.read, List.getD_eq_getElem?_getD]

theorem Module.read_merge_old (m : Module) (source ref : Nat) (h : ref < m.heap.length) :
    (m.merge source).1.read ref = m.read ref := by
  simp [Module.merge, Module.read, List.getD_eq_getElem?_getD, List.getElem?_append_left h]

theorem Module.read_writeHeaders_merge (m : Module) (source : Nat)
    (headers : List (String × String)) :
    ((m.merge source).1.writeHeaders (m.merge source).2 headers).read (m.merge source).2 =
      { m.read source with headers := some headers } := by
  simp [Module.merge, Module.read, Module.writeHeaders, List.getD_eq_getElem?_getD]

/-- The trace of `preflight` in terms of the live configuration: which callback is
invoked, and with which arguments. -/
theorem preflight_trace (m : Module) (data : JsValue) (done : PreflightCallback) :
    (preflight m data done).2 =
      (if isEmpty (ofString m.live.baseUrl) then
        (if isFunction data then userCallback data else done)
          (newError "Missing Server Base URL") none
      else if isEmpty (ofString m.live.uri) then
        (if isFunction data then userCallback data else done)
          (newError "Missing Service Request URI") none
      else if isEmpty (ofString m.live.token) then
        (if isFunction data then userCallback data else done)
          (newError "Missing API Token") none
      else if isFunction data then
        userCallback data (newError "Missing Service Request Data") none
      else if isEmpty
          (if data.truthy && isFunction (data.get "toObject") then data.get "toObject"
            else data) then
        done (newError "Missing Service Request Data") none
      else
        done .null (some { m.live with
          headers := some [("Authorization", plus "Bearer " m.live.token),
            ("Accept", "application/json")] })) := by
  have h1 := Module.read_merge m m.options
  have h2 := Module.read_writeHeaders_merge m m.options
  unfold preflight
  generalize m.merge m.options = p at h1 h2 ⊢
  obtain ⟨m', r⟩ := p
  simp only at h1 h2 ⊢
  simp only [h1, h2, Module.live]
  cases hfn : isFunction data
  · simp only [Bool.false_eq_true, if_false]
    repeat' split
    all_goals rfl
  · simp only [if_true]
    repeat' split
    all_goals first
      | rfl
      | (rename_i hto _; exact absurd hto (by decide))
      | (rename_i hne; exact absurd rfl hne)

/-- An array-like object of length 0 with a `splice` function is empty for `_.isEmpty`,
own properties notwithstanding: on the configured module `preflight` rejects it and
`post` and `patch` hand nothing to the HTTP client. -/
theorem arrayLike_rejected :
    isEmpty arrayLike = true ∧
      (preflight configured arrayLike (userCallback callback)).2 =
        { requests := []
          calls := [⟨callback, [.value (newError "Missing Service Request Data")]⟩]
          thrown := none } ∧
      (post configured arrayLike callback ⟨.null, responseWith 201, card⟩).2 =
        { requests := []
          calls := [⟨callback, [.value (newError "Missing Service Request Data")]⟩]
          thrown := none } ∧
      (patch configured arrayLike callback ⟨.null, responseWith 200, card⟩).2 =
        { requests := []
          calls := [⟨callback, [.value (newError "Missing Service Request Data")]⟩]
          thrown := none } :=
  ⟨by decide, rfl, rfl, rfl⟩

/-- An array-like object with a `splice` function and a length other than 0 is not
empty, whether or not it has own enumerable properties. -/
theorem isEmpty_arrayLike_of_length (n : Int) (props hidden : List (String × JsValue))
    (hlength : (JsValue.obj props hidden).get "length" = .num n)
    (hn : 0 < n) (hmax : n ≤ MAX_SAFE_INTEGER)
    (hsplice : isFunction ((JsValue.obj props hidden).get "splice") = true) :
    isEmpty (.obj props hidden) = false := by
  have hne : (n == 0) = false := by
    simp only [beq_eq_false_iff_ne, ne_eq]
    omega
  have h1 : (-1 : Int) < n := by omega
  simp [isEmpty, isLength, hlength, hsplice, JsValue.strictEqNum, hne, h1, hmax]

/-! ## Preflight -/

/-- C1: the checks of `preflight` run in the order baseUrl, uri, token, payload and the
first failing one decides the error. For every module state, payload and callback: when
the live `baseUrl` is empty or absent the callback receives `Missing Server Base URL`,
whatever the rest is; otherwise, when `uri` is empty, `Missing Service Request URI`;
otherwise, when `token` is empty or absent, `Missing API Token`; otherwise, when the
payload is the empty mapping, `Missing Service Request Data`. The callback is `done`,
or the first argument when that one is a function. -/
theorem preflight_first_failing_check_wins (m : Module) (data : JsValue)
    (done : PreflightCallback) :
    (isEmpty (ofString m.live.baseUrl) = true →
      (preflight m data done).2 =
        (if isFunction data then userCallback data else done)
          (newError "Missing Server Base URL") none) ∧
    (isEmpty (ofString m.live.baseUrl) = false →
      isEmpty (ofString m.live.uri) = true →
      (preflight m data done).2 =
        (if isFunction data then userCallback data else done)
          (newError "Missing Service Request URI") none) ∧
    (isEmpty (ofString m.live.baseUrl) = false →
      isEmpty (ofString m.live.uri) = false →
      isEmpty (ofString m.live.token) = true →
      (preflight m data done).2 =
        (if isFunction data then userCallback data else done)
          (newError "Missing API Token") none) ∧
    (isEmpty (ofString m.live.baseUrl) = false →
      isEmpty (ofString m.live.uri) = false →
      isEmpty (ofString m.live.token) = false →
      data = JsValue.obj [] [] →
      (preflight m data done).2 = done (newError "Missing Service Request Data") none) := by
  refine ⟨?_, ?_, ?_, ?_⟩
  · intro hb
    rw [preflight_trace, if_pos hb]
  · intro hb hu
    rw [preflight_trace, if_neg (by simp [hb]), if_pos hu]
  · intro hb hu ht
    rw [preflight_trace, if_neg (by simp [hb]), if_neg (by simp [hu]), if_pos ht]
  · intro hb hu ht hdata
    subst hdata
    rw [preflight_trace, if_neg (by simp [hb]), if_neg (by simp [hu]), if_neg (by simp [ht])]
    rfl

/-- The test `should throw Missing API Token if none defined`: after
`sync.baseUrl = ...` on the freshly loaded module, with the payload `{}`, the callback
receives `Missing API Token` and not the payload error. -/
theorem preflight_first_failing_check_wins_witness :
    isEmpty (ofString (Module.init.set (.baseUrl (some "http://localhost"))).live.baseUrl)
        = false ∧
      isEmpty (ofString (Module.init.set (.baseUrl (some "http://localhost"))).live.uri)
        = false ∧
      isEmpty (ofString (Module.init.set (.baseUrl (some "http://localhost"))).live.token)
        = true ∧
      (preflight (Module.init.set (.baseUrl (some "http://localhost"))) (JsValue.obj [] [])
          (userCallback (JsValue.fn "done" .undefined []))).2 =
        { requests := []
          calls := [⟨JsValue.fn "done" .undefined [], [.value (newError "Missing API Token")]⟩]
          thrown := none } :=
  ⟨by decide, by decide, by decide,
    (preflight_first_failing_check_wins (Module.init.set (.baseUrl (some "http://localhost")))
      (JsValue.obj [] []) (userCallback (JsValue.fn "done" .undefined []))).2.2.1
      (by decide) (by decide) (by decide)⟩

theorem newError_truthy (message : String) : (newError message).truthy = true := rfl

/-- On a configuration that passes the three checks and a payload that is neither a
function, nor exposes `toObject`, nor is empty, `preflight` hands its callback the copy
of the live configuration with the computed headers. -/
theorem preflight_trace_valid (m : Module) (data : JsValue) (done : PreflightCallback)
    (hb : isEmpty (ofString m.live.baseUrl) = false)
    (hu : isEmpty (ofString m.live.uri) = false)
    (ht : isEmpty (ofString m.live.token) = false)
    (hfn : isFunction data = false)
    (hto : isFunction (data.get "toObject") = false)
    (hne : isEmpty data = false) :
    (preflight m data done).2 =
      done .null (some { m.live with
        headers := some [("Authorization", plus "Bearer " m.live.token),
          ("Accept", "application/json")] }) := by
  simp [preflight_trace, hb, hu, ht, hfn, hto, hne]

/-! ## Validation precedes transmission -/

/-- C2: whenever `preflight` fails, that is, whenever it answers the callback with one
argument `error` and nothing else, `post` and `patch` leave exactly that trace: no
request is handed to the HTTP client and the same function receives the same error, and
that function is `done` when the payload is not itself a function. In particular, when
the live `baseUrl` is empty or absent, `post` and `patch` make no request and call
`done` with `Missing Server Base URL`. -/
theorem post_patch_back_off (m : Module) (data done : JsValue) (c : Completion) :
    (∀ callee error : JsValue,
      (preflight m data (userCallback done)).2 =
          { requests := [], calls := [⟨callee, [.value error]⟩], thrown := none } →
        (post m data done c).2 =
            { requests := [], calls := [⟨callee, [.value error]⟩], thrown := none } ∧
          (patch m data done c).2 =
            { requests := [], calls := [⟨callee, [.value error]⟩], thrown := none } ∧
          (isFunction data = false → callee = done)) ∧
    (isEmpty (ofString m.live.baseUrl) = true → isFunction data = false →
      isFunction done = true →
        (post m data done c).2 =
            { requests := []
              calls := [⟨done, [.value (newError "Missing Server Base URL")]⟩]
              thrown := none } ∧
          (patch m data done c).2 =
            { requests := []
              calls := [⟨done, [.value (newError "Missing Server Base URL")]⟩]
              thrown := none }) := by
  constructor
  · intro callee error hfail
    unfold post patch
    simp only [preflight_trace] at hfail ⊢
    cases hfn : isFunction data <;>
      simp only [hfn, if_true, if_false, Bool.false_eq_true, newError_truthy] at hfail ⊢
    · split_ifs at hfail ⊢
      all_goals
        simp only [userCallback, invoke] at hfail ⊢
        split_ifs at hfail ⊢ <;> simp_all
    · split_ifs at hfail ⊢
      all_goals simp_all
  · intro hb hfn hdone
    unfold post patch
    simp only [preflight_trace, if_pos hb, hfn, if_false, Bool.false_eq_true, newError_truthy,
      if_true, invoke, hdone, and_self]

/-- The test `should throw Missing Server Base URL if none defined`: on the freshly
loaded module `post` and `patch` of `{}` make no request and call `done` with the
preflight error, whatever the HTTP client would have answered. -/
theorem post_patch_back_off_witness :
    (preflight Module.init (JsValue.obj [] [])
        (userCallback (JsValue.fn "done" .undefined []))).2 =
      { requests := []
        calls := [⟨JsValue.fn "done" .undefined [],
          [.value (newError "Missing Server Base URL")]⟩]
        thrown := none } ∧
    (post Module.init (JsValue.obj [] []) (JsValue.fn "done" .undefined [])
        ⟨.null, .obj [("statusCode", .num 201)] [], .obj [("id", .num 1)] []⟩).2 =
      { requests := []
        calls := [⟨JsValue.fn "done" .undefined [],
          [.value (newError "Missing Server Base URL")]⟩]
        thrown := none } ∧
    (patch Module.init (JsValue.obj [] []) (JsValue.fn "done" .undefined [])
        ⟨.null, .obj [("statusCode", .num 201)] [], .obj [("id", .num 1)] []⟩).2 =
      { requests := []
        calls := [⟨JsValue.fn "done" .undefined [],
          [.value (newError "Missing Server Base URL")]⟩]
        thrown := none } :=
  have h := (post_patch_back_off Module.init (JsValue.obj [] [])
    (JsValue.fn "done" .undefined [])
    ⟨.null, .obj [("statusCode", .num 201)] [], .obj [("id", .num 1)] []⟩).1
    (JsValue.fn "done" .undefined []) (newError "Missing Server Base URL") rfl
  ⟨rfl, h.1, h.2.1⟩

/-! ## Classification of the response -/

theorem JsValue.strictEqNum_eq_true (v : JsValue) (n : Int) :
    v.strictEqNum n = true ↔ v = .num n := by
  cases v <;> simp [JsValue.strictEqNum]

theorem JsValue.truthy_of_get_num (v : JsValue) (key : String) (n : Int)
    (h : v.get key = .num n) : v.truthy = true := by
  cases v <;> simp_all [JsValue.get, JsValue.truthy]

/-- The test `isSuccess` of both handlers holds exactly on the status codes 200 and
201. -/
theorem isSuccess_iff (response : JsValue) :
    (response.truthy &&
        ((response.get "statusCode").strictEqNum 201 ||
          (response.get "statusCode").strictEqNum 200)) = true ↔
      (response.get "statusCode" = .num 200 ∨ response.get "statusCode" = .num 201) := by
  simp only [Bool.and_eq_true, Bool.or_eq_true, JsValue.strictEqNum_eq_true]
  constructor
  · rintro ⟨_, h | h⟩
    · exact Or.inr h
    · exact Or.inl h
  · rintro (h | h)
    · exact ⟨JsValue.truthy_of_get_num _ _ _ h, Or.inr h⟩
    · exact ⟨JsValue.truthy_of_get_num _ _ _ h, Or.inl h⟩

theorem isSuccess_eq_false (response : JsValue)
    (h200 : response.get "statusCode" ≠ .num 200)
    (h201 : response.get "statusCode" ≠ .num 201) :
    (response.truthy &&
        ((response.get "statusCode").strictEqNum 201 ||
          (response.get "statusCode").strictEqNum 200)) = false := by
  rw [← Bool.not_eq_true, isSuccess_iff]
  rintro (h | h)
  · exact h200 h
  · exact h201 h

/-- On a valid configuration and payload `post` hands one request to the HTTP client
and leaves the rest to its handler. -/
theorem post_trace_valid (m : Module) (data done : JsValue) (c : Completion)
    (hb : isEmpty (ofString m.live.baseUrl) = false)
    (hu : isEmpty (ofString m.live.uri) = false)
    (ht : isEmpty (ofString m.live.token) = false)
    (hfn : isFunction data = false)
    (hto : isFunction (data.get "toObject") = false)
    (hne : isEmpty data = false) :
    (post m data done c).2 =
      request .post
        { timeout := none
          baseUrl := m.live.baseUrl
          uri := m.live.uri
          headers := some [("Authorization", plus "Bearer " m.live.token),
            ("Accept", "application/json")]
          gzip := m.live.gzip
          json := data } c (postHandler done) := by
  unfold post
  rw [preflight_trace_valid m data _ hb hu ht hfn hto hne]
  rfl

/-- On a valid configuration and payload `patch` hands one request to the HTTP client
and leaves the rest to its handler. -/
theorem patch_trace_valid (m : Module) (data done : JsValue) (c : Completion)
    (hb : isEmpty (ofString m.live.baseUrl) = false)
    (hu : isEmpty (ofString m.live.uri) = false)
    (ht : isEmpty (ofString m.live.token) = false)
    (hfn : isFunction data = false)
    (hto : isFunction (data.get "toObject") = false)
    (hne : isEmpty data = false) :
    (patch m data done c).2 =
      request .patch
        { timeout := none
          baseUrl := m.live.baseUrl
          uri := m.live.uri
          headers := some [("Authorization", plus "Bearer " m.live.token),
            ("Accept", "application/json")]
          gzip := m.live.gzip
          json := data } c (patchHandler done) := by
  unfold patch
  rw [preflight_trace_valid m data _ hb hu ht hfn hto hne]
  rfl

/-- C3: on a configuration with non-empty baseUrl, uri and token, a payload that is
taken as given (not a function, no `toObject` function, not empty, as every non-empty
plain mapping is) and a completion without transport error, `post` calls `done` with
`(null, body)`, the body being the one of the completion, if and only if the status
code of the response is 200 or 201. -/
theorem post_success_iff_status_200_or_201 (m : Module) (data done : JsValue)
    (c : Completion)
    (hb : isEmpty (ofString m.live.baseUrl) = false)
    (hu : isEmpty (ofString m.live.uri) = false)
    (ht : isEmpty (ofString m.live.token) = false)
    (hfn : isFunction data = false)
    (hto : isFunction (data.get "toObject") = false)
    (hne : isEmpty data = false)
    (hdone : isFunction done = true)
    (herr : c.error.truthy = false) :
    ((post m data done c).2.calls = [⟨done, [.value .null, .value c.body]⟩] ↔
      (c.response.get "statusCode" = .num 200 ∨ c.response.get "statusCode" = .num 201)) := by
  rw [post_trace_valid m data done c hb hu ht hfn hto hne, ← isSuccess_iff]
  simp only [request, postHandler, herr, invoke, hdone, if_true, if_false, Bool.false_eq_true]
  cases hs : (c.response.truthy &&
      ((c.response.get "statusCode").strictEqNum 201 ||
        (c.response.get "statusCode").strictEqNum 200))
  · cases hn : c.response.isNullish <;> simp [throwTypeError]
  · simp

/-- The test `post#success`: a response of status 201 with body `{id: 1}` yields
`(null, {id: 1})`. -/
theorem post_success_iff_status_200_or_201_witness :
    isEmpty (ofString configured.live.baseUrl) = false ∧
    isEmpty (ofString configured.live.uri) = false ∧
    isEmpty (ofString configured.live.token) = false ∧
    isFunction card = false ∧
    isFunction (card.get "toObject") = false ∧
    isEmpty card = false ∧
    isFunction callback = true ∧
    JsValue.truthy .null = false ∧
    (post configured card callback
        ⟨.null, responseWith 201, .obj [("id", .num 1)] []⟩).2.calls =
      [⟨callback, [.value .null, .value (.obj [("id", .num 1)] [])]⟩] :=
  ⟨by decide, by decide, by decide, by decide, by decide, by decide, by decide, by decide,
    (post_success_iff_status_200_or_201 configured card callback
      ⟨.null, responseWith 201, .obj [("id", .num 1)] []⟩
      (by decide) (by decide) (by decide) (by decide) (by decide) (by decide) (by decide)
      (by decide)).2 (Or.inr rfl)⟩

/-- C4: on a configuration with non-empty baseUrl, uri and token, a payload that is
taken as given and a response whose status code is neither 200 nor 201, `post` calls
`done` with one argument and no body: an error whose message is
`Fail to Sync Service Request` and whose `status` is the status code of the response,
whatever body the response carried. -/
theorem post_failure_carries_status (m : Module) (data done : JsValue) (c : Completion)
    (hb : isEmpty (ofString m.live.baseUrl) = false)
    (hu : isEmpty (ofString m.live.uri) = false)
    (ht : isEmpty (ofString m.live.token) = false)
    (hfn : isFunction data = false)
    (hto : isFunction (data.get "toObject") = false)
    (hne : isEmpty data = false)
    (hdone : isFunction done = true)
    (herr : c.error.truthy = false)
    (hresponse : c.response.isNullish = false)
    (h200 : c.response.get "statusCode" ≠ .num 200)
    (h201 : c.response.get "statusCode" ≠ .num 201) :
    (post m data done c).2.calls =
        [⟨done, [.value (.obj [("status", c.response.get "statusCode")]
          [("message", .str "Fail to Sync Service Request")])]⟩] ∧
      (JsValue.obj [("status", c.response.get "statusCode")]
          [("message", .str "Fail to Sync Service Request")]).get "message" =
        .str "Fail to Sync Service Request" ∧
      (JsValue.obj [("status", c.response.get "statusCode")]
          [("message", .str "Fail to Sync Service Request")]).get "status" =
        c.response.get "statusCode" := by
  refine ⟨?_, rfl, rfl⟩
  rw [post_trace_valid m data done c hb hu ht hfn hto hne]
  simp only [request, postHandler, herr, invoke, hdone, if_true, if_false, Bool.false_eq_true,
    isSuccess_eq_false _ h200 h201, hresponse, Bool.not_false]
  rfl

/-- The test `post#error`: a response of status 500 with body `{}` yields an error of
status 500 and no body. -/
theorem post_failure_carries_status_witness :
    isEmpty (ofString configured.live.baseUrl) = false ∧
    isEmpty (ofString configured.live.uri) = false ∧
    isEmpty (ofString configured.live.token) = false ∧
    isFunction card = false ∧
    isFunction (card.get "toObject") = false ∧
    isEmpty card = false ∧
    isFunction callback = true ∧
    JsValue.truthy .null = false ∧
    (responseWith 500).isNullish = false ∧
    (responseWith 500).get "statusCode" ≠ .num 200 ∧
    (responseWith 500).get "statusCode" ≠ .num 201 ∧
    (post configured card callback ⟨.null, responseWith 500, .obj [] []⟩).2.calls =
      [⟨callback, [.value (.obj [("status", .num 500)]
        [("message", .str "Fail to Sync Service Request")])]⟩] :=
  ⟨by decide, by decide, by decide, by decide, by decide, by decide, by decide, by decide,
    by decide, by simp [responseWith, JsValue.get], by simp [responseWith, JsValue.get],
    (post_failure_carries_status configured card callback ⟨.null, responseWith 500, .obj [] []⟩
      (by decide) (by decide) (by decide) (by decide) (by decide) (by decide) (by decide)
      (by decide) (by decide) (by simp [responseWith, JsValue.get])
      (by simp [responseWith, JsValue.get])).1⟩

/-! ## Payloads exposing `toObject` -/

/-- C5: on the configured module, a document whose `toObject` returns the non-empty
mapping `{name: 'Jane'}` is rejected by `preflight`: the `toObject` function itself,
not the mapping it returns, is tested for emptiness, so `post` and `patch` hand no
request to the HTTP client and call `done` with `Missing Service Request Data`. -/
theorem post_patch_document_rejected :
    isEmpty (ofString configured.live.baseUrl) = false ∧
    isEmpty (ofString configured.live.uri) = false ∧
    isEmpty (ofString configured.live.token) = false ∧
    document.get "toObject" = .fn "toObject" card [] ∧
    isEmpty card = false ∧
    (post configured document callback ⟨.null, responseWith 201, card⟩).2 =
      { requests := []
        calls := [⟨callback, [.value (newError "Missing Service Request Data")]⟩]
        thrown := none } ∧
    (patch configured document callback ⟨.null, responseWith 200, card⟩).2 =
      { requests := []
        calls := [⟨callback, [.value (newError "Missing Service Request Data")]⟩]
        thrown := none } :=
  ⟨by decide, by decide, by decide, rfl, by decide, rfl, rfl⟩

/-! ## The callback arguments of `patch` -/

/-- C6, as stated, fails: for a response of status 404 the callback of `patch` is not
called with three arguments of which the third is the raw response; it is called with
two, the error and the raw response. -/
theorem patch_failure_response_is_not_third_argument :
    (patch configured card callback ⟨.null, responseWith 404, .obj [] []⟩).2.calls =
        [⟨callback, [.value (.obj [("status", .num 404)]
          [("message", .str "Fail to Sync Service Request")]), .value (responseWith 404)]⟩] ∧
      ¬ ∃ error body : JsValue,
        (patch configured card callback ⟨.null, responseWith 404, .obj [] []⟩).2.calls =
          [⟨callback, [.value error, .value body, .value (responseWith 404)]⟩] := by
  have hcalls :
      (patch configured card callback ⟨.null, responseWith 404, .obj [] []⟩).2.calls =
        [⟨callback, [.value (.obj [("status", .num 404)]
          [("message", .str "Fail to Sync Service Request")]), .value (responseWith 404)]⟩] :=
    rfl
  refine ⟨hcalls, ?_⟩
  rintro ⟨error, body, h⟩
  rw [hcalls] at h
  simp at h

/-- C6, amended: on a configuration with non-empty baseUrl, uri and token, a payload
that is taken as given and a response whose status code is neither 200 nor 201, `patch`
calls `done` with exactly two arguments: an error whose message is
`Fail to Sync Service Request` and whose `status` is the status code of the response,
and, in second position, the raw response. -/
theorem patch_failure_carries_status_and_response (m : Module) (data done : JsValue)
    (c : Completion)
    (hb : isEmpty (ofString m.live.baseUrl) = false)
    (hu : isEmpty (ofString m.live.uri) = false)
    (ht : isEmpty (ofString m.live.token) = false)
    (hfn : isFunction data = false)
    (hto : isFunction (data.get "toObject") = false)
    (hne : isEmpty data = false)
    (hdone : isFunction done = true)
    (herr : c.error.truthy = false)
    (hresponse : c.response.isNullish = false)
    (h200 : c.response.get "statusCode" ≠ .num 200)
    (h201 : c.response.get "statusCode" ≠ .num 201) :
    (patch m data done c).2.calls =
        [⟨done, [.value (.obj [("status", c.response.get "statusCode")]
          [("message", .str "Fail to Sync Service Request")]), .value c.response]⟩] ∧
      (JsValue.obj [("status", c.response.get "statusCode")]
          [("message", .str "Fail to Sync Service Request")]).get "status" =
        c.response.get "statusCode" := by
  refine ⟨?_, rfl⟩
  rw [patch_trace_valid m data done c hb hu ht hfn hto hne]
  simp only [request, patchHandler, herr, invoke, hdone, if_true, if_false,
    Bool.false_eq_true, isSuccess_eq_false _ h200 h201, hresponse, Bool.not_false]
  rfl

/-- A response of status 404 to `patch` yields the error of status 404 and, second, the
raw response. -/
theorem patch_failure_carries_status_and_response_witness :
    isEmpty (ofString configured.live.baseUrl) = false ∧
    isEmpty (ofString configured.live.uri) = false ∧
    isEmpty (ofString configured.live.token) = false ∧
    isFunction card = false ∧
    isFunction (card.get "toObject") = false ∧
    isEmpty card = false ∧
    isFunction callback = true ∧
    JsValue.truthy .null = false ∧
    (responseWith 404).isNullish = false ∧
    (responseWith 404).get "statusCode" ≠ .num 200 ∧
    (responseWith 404).get "statusCode" ≠ .num 201 ∧
    (patch configured card callback ⟨.null, responseWith 404, .obj [] []⟩).2.calls =
      [⟨callback, [.value (.obj [("status", .num 404)]
        [("message", .str "Fail to Sync Service Request")]), .value (responseWith 404)]⟩] :=
  ⟨by decide, by decide, by decide, by decide, by decide, by decide, by decide, by decide,
    by decide, by simp [responseWith, JsValue.get], by simp [responseWith, JsValue.get],
    (patch_failure_carries_status_and_response configured card callback
      ⟨.null, responseWith 404, .obj [] []⟩
      (by decide) (by decide) (by decide) (by decide) (by decide) (by decide) (by decide)
      (by decide) (by decide) (by simp [responseWith, JsValue.get])
      (by simp [responseWith, JsValue.get])).1⟩

/-- C7: `patch` accepts the success statuses of `post`. On a configuration with
non-empty baseUrl, uri and token, a payload that is taken as given and a completion
without transport error, `patch` calls `done` with `(null, body, response)` if and only
if the status code is 200 or 201, which is if and only if `post` calls `done` with
`(null, body)` for the same body. -/
theorem patch_success_iff_post_success (m : Module) (data done : JsValue) (c : Completion)
    (hb : isEmpty (ofString m.live.baseUrl) = false)
    (hu : isEmpty (ofString m.live.uri) = false)
    (ht : isEmpty (ofString m.live.token) = false)
    (hfn : isFunction data = false)
    (hto : isFunction (data.get "toObject") = false)
    (hne : isEmpty data = false)
    (hdone : isFunction done = true)
    (herr : c.error.truthy = false) :
    ((patch m data done c).2.calls =
          [⟨done, [.value .null, .value c.body, .value c.response]⟩] ↔
        (c.response.get "statusCode" = .num 200 ∨ c.response.get "statusCode" = .num 201)) ∧
      ((patch m data done c).2.calls =
          [⟨done, [.value .null, .value c.body, .value c.response]⟩] ↔
        (post m data done c).2.calls = [⟨done, [.value .null, .value c.body]⟩]) := by
  rw [patch_trace_valid m data done c hb hu ht hfn hto hne,
    post_trace_valid m data done c hb hu ht hfn hto hne, ← isSuccess_iff]
  simp only [request, patchHandler, postHandler, herr, invoke, hdone, if_true, if_false,
    Bool.false_eq_true]
  cases hs : (c.response.truthy &&
      ((c.response.get "statusCode").strictEqNum 201 ||
        (c.response.get "statusCode").strictEqNum 200))
  · cases hn : c.response.isNullish <;> simp [throwTypeError]
  · simp

/-- A response of status 200 to `patch` yields `(null, body, response)`. -/
theorem patch_success_iff_post_success_witness :
    isEmpty (ofString configured.live.baseUrl) = false ∧
    isEmpty (ofString configured.live.uri) = false ∧
    isEmpty (ofString configured.live.token) = false ∧
    isFunction card = false ∧
    isFunction (card.get "toObject") = false ∧
    isEmpty card = false ∧
    isFunction callback = true ∧
    JsValue.truthy .null = false ∧
    (patch configured card callback ⟨.null, responseWith 200, card⟩).2.calls =
      [⟨callback, [.value .null, .value card, .value (responseWith 200)]⟩] :=
  ⟨by decide, by decide, by decide, by decide, by decide, by decide, by decide, by decide,
    ((patch_success_iff_post_success configured card callback ⟨.null, responseWith 200, card⟩
      (by decide) (by decide) (by decide) (by decide) (by decide) (by decide) (by decide)
      (by decide)).1).2 (Or.inl rfl)⟩

/-! ## The effective request options and the request -/

theorem plus_some (pre value : String) : plus pre (some value) = pre ++ value := rfl

/-- C9: on a configuration with non-empty baseUrl, uri and token and a payload that is
taken as given, `preflight` succeeds: it calls its callback with `null` and an options
object whose timeout, gzip, baseUrl, uri and token are those of the live configuration
and whose headers are exactly `Authorization: Bearer <token>` and
`Accept: application/json`. -/
theorem preflight_effective_options (m : Module) (data : JsValue)
    (done : PreflightCallback) (token : String)
    (hb : isEmpty (ofString m.live.baseUrl) = false)
    (hu : isEmpty (ofString m.live.uri) = false)
    (htoken : m.live.token = some token)
    (ht : token ≠ "")
    (hfn : isFunction data = false)
    (hto : isFunction (data.get "toObject") = false)
    (hne : isEmpty data = false) :
    (preflight m data done).2 =
      done .null (some
        { timeout := m.live.timeout
          gzip := m.live.gzip
          baseUrl := m.live.baseUrl
          uri := m.live.uri
          token := m.live.token
          headers := some [("Authorization", "Bearer " ++ token),
            ("Accept", "application/json")] }) := by
  have ht' : isEmpty (ofString m.live.token) = false := by
    simp [htoken, ofString, isEmpty, ht]
  rw [preflight_trace_valid m data done hb hu ht' hfn hto hne]
  simp only [htoken, plus_some]

/-- On the configured module `preflight` of `{name: 'Jane'}` hands the caller's callback
the defaults with the base URL, the token and the two headers. -/
theorem preflight_effective_options_witness :
    isEmpty (ofString configured.live.baseUrl) = false ∧
    isEmpty (ofString configured.live.uri) = false ∧
    configured.live.token = some "secret" ∧
    "secret" ≠ "" ∧
    isFunction card = false ∧
    isFunction (card.get "toObject") = false ∧
    isEmpty card = false ∧
    (preflight configured card (userCallback callback)).2 =
      { requests := []
        calls := [⟨callback, [.value .null, .options
          { timeout := some 600000
            gzip := some true
            baseUrl := some "http://localhost"
            uri := some "/servicerequests"
            token := some "secret"
            headers := some [("Authorization", "Bearer secret"),
              ("Accept", "application/json")] }]⟩]
        thrown := none } :=
  ⟨by decide, by decide, by decide, by decide, by decide, by decide, by decide,
    preflight_effective_options configured card (userCallback callback) "secret"
      (by decide) (by decide) (by decide) (by decide) (by decide) (by decide) (by decide)⟩

theorem postHandler_requests (done error response body : JsValue) :
    (postHandler done error response body).requests = [] := by
  unfold postHandler invoke throwTypeError
  simp only []
  split_ifs <;> rfl

theorem patchHandler_requests (done error response body : JsValue) :
    (patchHandler done error response body).requests = [] := by
  unfold patchHandler invoke throwTypeError
  simp only []
  split_ifs <;> rfl

/-- C10: on a configuration with non-empty baseUrl, uri and token and a payload that is
taken as given, `post` hands exactly one request to the HTTP client, through
`request.post`, whose baseUrl, uri and gzip are those of the live configuration, whose
headers are `Authorization: Bearer <token>` and `Accept: application/json` and whose
`json` is the payload as given (no other key is set); `patch` hands over the same
request options through `request.patch`. -/
theorem post_patch_single_request (m : Module) (data done : JsValue) (c : Completion)
    (token : String)
    (hb : isEmpty (ofString m.live.baseUrl) = false)
    (hu : isEmpty (ofString m.live.uri) = false)
    (htoken : m.live.token = some token)
    (ht : token ≠ "")
    (hfn : isFunction data = false)
    (hto : isFunction (data.get "toObject") = false)
    (hne : isEmpty data = false) :
    (post m data done c).2.requests =
        [⟨.post,
          { timeout := none
            baseUrl := m.live.baseUrl
            uri := m.live.uri
            headers := some [("Authorization", "Bearer " ++ token),
              ("Accept", "application/json")]
            gzip := m.live.gzip
            json := data }⟩] ∧
      (patch m data done c).2.requests =
        [⟨.patch,
          { timeout := none
            baseUrl := m.live.baseUrl
            uri := m.live.uri
            headers := some [("Authorization", "Bearer " ++ token),
              ("Accept", "application/json")]
            gzip := m.live.gzip
            json := data }⟩] := by
  have ht' : isEmpty (ofString m.live.token) = false := by
    simp [htoken, ofString, isEmpty, ht]
  rw [post_trace_valid m data done c hb hu ht' hfn hto hne,
    patch_trace_valid m data done c hb hu ht' hfn hto hne]
  simp only [request, postHandler_requests, patchHandler_requests, htoken, plus_some, and_self]

/-- On the configured module `post` and `patch` of `{name: 'Jane'}` hand one request to
the HTTP client, with the base URL, the default uri, the two headers, gzip and the
payload. -/
theorem post_patch_single_request_witness :
    isEmpty (ofString configured.live.baseUrl) = false ∧
    isEmpty (ofString configured.live.uri) = false ∧
    configured.live.token = some "secret" ∧
    "secret" ≠ "" ∧
    isFunction card = false ∧
    isFunction (card.get "toObject") = false ∧
    isEmpty card = false ∧
    (post configured card callback ⟨.null, responseWith 201, card⟩).2.requests =
      [⟨.post,
        { timeout := none
          baseUrl := some "http://localhost"
          uri := some "/servicerequests"
          headers := some [("Authorization", "Bearer secret"), ("Accept", "application/json")]
          gzip := some true
          json := card }⟩] :=
  ⟨by decide, by decide, by decide, by decide, by decide, by decide, by decide,
    (post_patch_single_request configured card callback ⟨.null, responseWith 201, card⟩
      "secret" (by decide) (by decide) (by decide) (by decide) (by decide) (by decide)
      (by decide)).1⟩

/-! ## The defaults are never written -/

theorem Module.defaults_set (m : Module) (a : Assignment) :
    (m.set a).defaults = m.defaults := rfl

theorem Module.length_heap_set (m : Module) (a : Assignment) :
    (m.set a).heap.length = m.heap.length + 1 := by
  simp [Module.set, Module.merge, Module.write]

/-- A setter leaves every object that was there before it as it was: it writes into
the copy it has just allocated. -/
theorem Module.read_set_old (m : Module) (a : Assignment) (ref : Nat)
    (h : ref < m.heap.length) : (m.set a).read ref = m.read ref := by
  have hne : m.heap.length ≠ ref := Nat.ne_of_gt h
  simp [Module.set, Module.merge, Module.write, Module.read, List.getElem?_set_ne hne,
    List.getElem?_append_left h]

/-- Configuration steps keep the reference `exports.defaults` and the object it refers
to. -/
theorem Module.run_defaults (ops : List Op) :
    ∀ m : Module, m.defaults < m.heap.length →
      (m.run ops).defaults = m.defaults ∧
        m.defaults < (m.run ops).heap.length ∧
        (m.run ops).read m.defaults = m.read m.defaults := by
  induction ops with
  | nil => intro m h; exact ⟨rfl, h, rfl⟩
  | cons op ops ih =>
    intro m h
    cases op with
    | set a =>
      have hlt : (m.set a).defaults < (m.set a).heap.length := by
        rw [Module.defaults_set, Module.length_heap_set]; omega
      obtain ⟨h1, h2, h3⟩ := ih (m.set a) hlt
      exact ⟨h1, h2, by rw [Module.defaults_set] at h3; rw [← Module.read_set_old m a _ h]; exact h3⟩
    | reset =>
      exact ih m.reset h

/-- C8: writes never leak into the defaults. After every finite sequence of
assignments through the setters and calls of `reset`, starting from the freshly loaded
module, the object `exports.defaults` refers to is still the object literal of the
source, so that after a final `reset()` the live configuration is that literal: the
getters return timeout 600000, gzip true, uri `/servicerequests`, and `undefined` for
baseUrl and token. -/
theorem defaults_never_written (ops : List Op) :
    (Module.init.run ops).read (Module.init.run ops).defaults = defaults ∧
      (Module.init.run ops).reset.live = defaults ∧
      (Module.init.run ops).reset.get .timeout = .num 600000 ∧
      (Module.init.run ops).reset.get .gzip = .bool true ∧
      (Module.init.run ops).reset.get .uri = .str "/servicerequests" ∧
      (Module.init.run ops).reset.get .baseUrl = .undefined ∧
      (Module.init.run ops).reset.get .token = .undefined := by
  obtain ⟨h1, -, h3⟩ := Module.run_defaults ops Module.init (by decide)
  have hread : (Module.init.run ops).read (Module.init.run ops).defaults = defaults := by
    rw [h1, h3]; rfl
  have hlive : (Module.init.run ops).reset.live = defaults := hread
  refine ⟨hread, hlive, ?_, ?_, ?_, ?_, ?_⟩ <;> simp only [Module.get, hlive] <;> rfl

/-! ## Transport errors -/

/-- C11: on a configuration with non-empty baseUrl, uri and token and a payload that is
taken as given, a transport error `e` returned by the HTTP client reaches the callback
as it is: `post` calls `done(e)`, with `e` itself, no status added and no body, and
`patch` calls `done(e, response)`, with `e` itself as the error argument. -/
theorem transport_error_passed_through (m : Module) (data done : JsValue) (c : Completion)
    (hb : isEmpty (ofString m.live.baseUrl) = false)
    (hu : isEmpty (ofString m.live.uri) = false)
    (ht : isEmpty (ofString m.live.token) = false)
    (hfn : isFunction data = false)
    (hto : isFunction (data.get "toObject") = false)
    (hne : isEmpty data = false)
    (hdone : isFunction done = true)
    (herr : c.error.truthy = true) :
    (post m data done c).2.calls = [⟨done, [.value c.error]⟩] ∧
      (patch m data done c).2.calls = [⟨done, [.value c.error, .value c.response]⟩] := by
  rw [post_trace_valid m data done c hb hu ht hfn hto hne,
    patch_trace_valid m data done c hb hu ht hfn hto hne]
  simp only [request, postHandler, patchHandler, herr, invoke, hdone, if_true, and_self]

/-- A refused connection: the error object of the HTTP client reaches the callback of
`post` and of `patch` unchanged. -/
theorem transport_error_passed_through_witness :
    isEmpty (ofString configured.live.baseUrl) = false ∧
    isEmpty (ofString configured.live.uri) = false ∧
    isEmpty (ofString configured.live.token) = false ∧
    isFunction card = false ∧
    isFunction (card.get "toObject") = false ∧
    isEmpty card = false ∧
    isFunction callback = true ∧
    (JsValue.obj [("code", .str "ECONNREFUSED")] []).truthy = true ∧
    (post configured card callback
        ⟨.obj [("code", .str "ECONNREFUSED")] [], .undefined, .undefined⟩).2.calls =
      [⟨callback, [.value (.obj [("code", .str "ECONNREFUSED")] [])]⟩] ∧
    (patch configured card callback
        ⟨.obj [("code", .str "ECONNREFUSED")] [], .undefined, .undefined⟩).2.calls =
      [⟨callback, [.value (.obj [("code", .str "ECONNREFUSED")] []), .value .undefined]⟩] :=
  have h := transport_error_passed_through configured card callback
    ⟨.obj [("code", .str "ECONNREFUSED")] [], .undefined, .undefined⟩
    (by decide) (by decide) (by decide) (by decide) (by decide) (by decide) (by decide)
    (by decide)
  ⟨by decide, by decide, by decide, by decide, by decide, by decide, by decide, by decide,
    h.1, h.2⟩

/-! ## One call of the callback -/

theorem null_truthy : JsValue.null.truthy = false := rfl

theorem request_thrown (method : Method) (requestOptions : RequestOptions) (c : Completion)
    (handler : JsValue → JsValue → JsValue → Trace) :
    (request method requestOptions c handler).thrown =
      (handler c.error c.response c.body).thrown := rfl

theorem request_calls (method : Method) (requestOptions : RequestOptions) (c : Completion)
    (handler : JsValue → JsValue → JsValue → Trace) :
    (request method requestOptions c handler).calls =
      (handler c.error c.response c.body).calls := rfl

theorem request_requests (method : Method) (requestOptions : RequestOptions)
    (c : Completion) (handler : JsValue → JsValue → JsValue → Trace) :
    (request method requestOptions c handler).requests =
      ⟨method, requestOptions⟩ :: (handler c.error c.response c.body).requests := rfl

/-- The handler of `post` calls `done` once, on one of its three branches, when the
completion is a transport error or a response. -/
theorem postHandler_once (done error response body : JsValue)
    (hdone : isFunction done = true)
    (hresponse : error.truthy = false → response.isNullish = false) :
    (postHandler done error response body).thrown = none ∧
      ((error.truthy = true ∧
          (postHandler done error response body).calls = [⟨done, [.value error]⟩]) ∨
        (error.truthy = false ∧
          (response.get "statusCode" = .num 200 ∨ response.get "statusCode" = .num 201) ∧
          (postHandler done error response body).calls =
            [⟨done, [.value .null, .value body]⟩]) ∨
        (error.truthy = false ∧
          ¬ (response.get "statusCode" = .num 200 ∨ response.get "statusCode" = .num 201) ∧
          (postHandler done error response body).calls =
            [⟨done, [.value (.obj [("status", response.get "statusCode")]
              [("message", .str "Fail to Sync Service Request")])]⟩])) := by
  unfold postHandler
  cases herr : error.truthy
  · have hn := hresponse herr
    simp only [Bool.false_eq_true, if_false, hn, ← isSuccess_iff]
    cases hs : (response.truthy &&
        ((response.get "statusCode").strictEqNum 201 ||
          (response.get "statusCode").strictEqNum 200))
    · simp [invoke, hdone, newError, JsValue.set, JsValue.setEntry]
    · simp [invoke, hdone]
  · simp [invoke, hdone]

/-- The handler of `patch` calls `done` once, on one of its three branches, when the
completion is a transport error or a response. -/
theorem patchHandler_once (done error response body : JsValue)
    (hdone : isFunction done = true)
    (hresponse : error.truthy = false → response.isNullish = false) :
    (patchHandler done error response body).thrown = none ∧
      ((error.truthy = true ∧
          (patchHandler done error response body).calls =
            [⟨done, [.value error, .value response]⟩]) ∨
        (error.truthy = false ∧
          (response.get "statusCode" = .num 200 ∨ response.get "statusCode" = .num 201) ∧
          (patchHandler done error response body).calls =
            [⟨done, [.value .null, .value body, .value response]⟩]) ∨
        (error.truthy = false ∧
          ¬ (response.get "statusCode" = .num 200 ∨ response.get "statusCode" = .num 201) ∧
          (patchHandler done error response body).calls =
            [⟨done, [.value (.obj [("status", response.get "statusCode")]
              [("message", .str "Fail to Sync Service Request")]), .value response]⟩])) := by
  unfold patchHandler
  cases herr : error.truthy
  · have hn := hresponse herr
    simp only [Bool.false_eq_true, if_false, hn, ← isSuccess_iff]
    cases hs : (response.truthy &&
        ((response.get "statusCode").strictEqNum 201 ||
          (response.get "statusCode").strictEqNum 200))
    · simp [invoke, hdone, newError, JsValue.set, JsValue.setEntry]
    · simp [invoke, hdone]
  · simp [invoke, hdone]

/-- C12: `post` and `patch` call the caller's callback exactly once and throw nothing,
for every module state, every payload and every transport outcome that is a transport
error or a response. The caller's callback is `done`, or the first argument when that
one is a function. Either no request is made and the callback receives the one error
`preflight` answers with; or one request is made and exactly one of three branches is
taken: the transport error, the success status (200 or 201), any other status. -/
theorem callback_invoked_exactly_once (m : Module) (data done : JsValue) (c : Completion)
    (hcallback : isFunction (if isFunction data then data else done) = true)
    (houtcome : c.error.truthy = true ∨ c.response.isNullish = false) :
    ((post m data done c).2.thrown = none ∧
      (((post m data done c).2.requests = [] ∧
          ∃ error : JsValue,
            (preflight m data (userCallback done)).2.calls =
                [⟨if isFunction data then data else done, [.value error]⟩] ∧
              (post m data done c).2.calls =
                [⟨if isFunction data then data else done, [.value error]⟩]) ∨
        ((post m data done c).2.requests.length = 1 ∧ isFunction data = false ∧
          ((c.error.truthy = true ∧
              (post m data done c).2.calls = [⟨done, [.value c.error]⟩]) ∨
            (c.error.truthy = false ∧
              (c.response.get "statusCode" = .num 200 ∨
                c.response.get "statusCode" = .num 201) ∧
              (post m data done c).2.calls = [⟨done, [.value .null, .value c.body]⟩]) ∨
            (c.error.truthy = false ∧
              ¬ (c.response.get "statusCode" = .num 200 ∨
                c.response.get "statusCode" = .num 201) ∧
              (post m data done c).2.calls =
                [⟨done, [.value (.obj [("status", c.response.get "statusCode")]
                  [("message", .str "Fail to Sync Service Request")])]⟩]))))) ∧
    ((patch m data done c).2.thrown = none ∧
      (((patch m data done c).2.requests = [] ∧
          ∃ error : JsValue,
            (preflight m data (userCallback done)).2.calls =
                [⟨if isFunction data then data else done, [.value error]⟩] ∧
              (patch m data done c).2.calls =
                [⟨if isFunction data then data else done, [.value error]⟩]) ∨
        ((patch m data done c).2.requests.length = 1 ∧ isFunction data = false ∧
          ((c.error.truthy = true ∧
              (patch m data done c).2.calls =
                [⟨done, [.value c.error, .value c.response]⟩]) ∨
            (c.error.truthy = false ∧
              (c.response.get "statusCode" = .num 200 ∨
                c.response.get "statusCode" = .num 201) ∧
              (patch m data done c).2.calls =
                [⟨done, [.value .null, .value c.body, .value c.response]⟩]) ∨
            (c.error.truthy = false ∧
              ¬ (c.response.get "statusCode" = .num 200 ∨
                c.response.get "statusCode" = .num 201) ∧
              (patch m data done c).2.calls =
                [⟨done, [.value (.obj [("status", c.response.get "statusCode")]
                  [("message", .str "Fail to Sync Service Request")]),
                  .value c.response]⟩]))))) := by
  have hnullish : c.error.truthy = false → c.response.isNullish = false := by
    intro h
    rcases houtcome with h' | h'
    · rw [h] at h'; exact absurd h' (by decide)
    · exact h'
  have hpost := postHandler_once done c.error c.response c.body
  have hpatch := patchHandler_once done c.error c.response c.body
  unfold post patch
  simp only [preflight_trace]
  cases hfn : isFunction data <;>
    simp only [hfn, if_true, if_false, Bool.false_eq_true, newError_truthy, null_truthy]
      at hcallback ⊢
  · split_ifs
    all_goals first
      | (simp [userCallback, invoke, hcallback]; done)
      | exact ⟨⟨(hpost hcallback hnullish).1, Or.inr ⟨by simp [request_requests,
            postHandler_requests], trivial, (hpost hcallback hnullish).2⟩⟩,
          ⟨(hpatch hcallback hnullish).1, Or.inr ⟨by simp [request_requests,
            patchHandler_requests], trivial, (hpatch hcallback hnullish).2⟩⟩⟩
  · split_ifs <;> simp [userCallback, invoke, hfn]

/-- The test `post#success` once more: one call of the callback, nothing thrown. -/
theorem callback_invoked_exactly_once_witness :
    isFunction (if isFunction card then card else callback) = true ∧
    (JsValue.null.truthy = true ∨ (responseWith 201).isNullish = false) ∧
    (post configured card callback ⟨.null, responseWith 201, card⟩).2.thrown = none ∧
    (post configured card callback ⟨.null, responseWith 201, card⟩).2.calls.length = 1 ∧
    (patch configured card callback ⟨.null, responseWith 201, card⟩).2.thrown = none ∧
    (patch configured card callback ⟨.null, responseWith 201, card⟩).2.calls.length = 1 :=
  have h := callback_invoked_exactly_once configured card callback
    ⟨.null, responseWith 201, card⟩ (by decide) (Or.inr (by decide))
  ⟨by decide, Or.inr (by decide), h.1.1, rfl, h.2.1, rfl⟩

/-! ## Preflight leaves the configuration alone -/

theorem Module.read_writeHeaders_merge_old (m : Module) (source ref : Nat)
    (headers : List (String × String)) (h : ref < m.heap.length) :
    ((m.merge source).1.writeHeaders (m.merge source).2 headers).read ref = m.read ref := by
  have hne : m.heap.length ≠ ref := Nat.ne_of_gt h
  simp [Module.merge, Module.read, Module.writeHeaders, List.getElem?_set_ne hne,
    List.getElem?_append_left h]

/-- The module `preflight` leaves: the one with the copy it allocated, with or without
the headers written into that copy. -/
theorem preflight_module (m : Module) (data : JsValue) (done : PreflightCallback) :
    (preflight m data done).1 = (m.merge m.options).1 ∨
      ∃ headers, (preflight m data done).1 =
        (m.merge m.options).1.writeHeaders (m.merge m.options).2 headers := by
  unfold preflight
  generalize m.merge m.options = p
  obtain ⟨m', r⟩ := p
  simp only
  cases hfn : isFunction data <;> simp only [Bool.false_eq_true, if_false, if_true]
  all_goals
    repeat' split
    all_goals first
      | exact Or.inl rfl
      | exact Or.inr ⟨_, rfl⟩

/-- Every state reached from the freshly loaded module by configuration steps has its
two references allocated. -/
theorem Module.run_allocated (ops : List Op) :
    ∀ m : Module, m.defaults < m.heap.length → m.options < m.heap.length →
      (m.run ops).defaults < (m.run ops).heap.length ∧
        (m.run ops).options < (m.run ops).heap.length := by
  induction ops with
  | nil => intro m h1 h2; exact ⟨h1, h2⟩
  | cons op ops ih =>
    intro m h1 h2
    cases op with
    | set a =>
      refine ih (m.set a) ?_ ?_
      · rw [Module.defaults_set, Module.length_heap_set]; omega
      · rw [Module.length_heap_set]
        simp [Module.set, Module.merge, Module.write]
    | reset => exact ih m.reset h1 h1

/-- C13: `preflight` never mutates the shared configuration. On every module state whose
two references are allocated (as they are in every state reached through the setters and
`reset`), for every payload and callback, whether `preflight` succeeds or fails:
`exports.options` and `exports.defaults` refer to the same objects as before, every
object allocated before the call reads as before, so that the live configuration and the
defaults are, field by field and `headers` included, what they were; the headers go to
the copy only. -/
theorem preflight_leaves_configuration (m : Module) (data : JsValue)
    (done : PreflightCallback)
    (hoptions : m.options < m.heap.length) (hdefaults : m.defaults < m.heap.length) :
    (preflight m data done).1.options = m.options ∧
      (preflight m data done).1.defaults = m.defaults ∧
      (∀ ref, ref < m.heap.length → (preflight m data done).1.read ref = m.read ref) ∧
      (preflight m data done).1.live = m.live ∧
      (preflight m data done).1.read (preflight m data done).1.defaults =
        m.read m.defaults := by
  have hall : (preflight m data done).1.options = m.options ∧
      (preflight m data done).1.defaults = m.defaults ∧
      (∀ ref, ref < m.heap.length → (preflight m data done).1.read ref = m.read ref) := by
    rcases preflight_module m data done with h | ⟨headers, h⟩
    · rw [h]
      exact ⟨rfl, rfl, fun ref href => Module.read_merge_old m m.options ref href⟩
    · rw [h]
      exact ⟨rfl, rfl, fun ref href =>
        Module.read_writeHeaders_merge_old m m.options ref headers href⟩
  obtain ⟨h1, h2, h3⟩ := hall
  refine ⟨h1, h2, h3, ?_, ?_⟩
  · unfold Module.live
    rw [h1, h3 _ hoptions]
  · rw [h2, h3 _ hdefaults]

/-- On the configured module a successful `preflight` leaves the live configuration
without headers and the defaults as they were. -/
theorem preflight_leaves_configuration_witness :
    configured.options < configured.heap.length ∧
    configured.defaults < configured.heap.length ∧
    (preflight configured card (userCallback callback)).1.live = configured.live ∧
    (preflight configured card (userCallback callback)).1.live.headers = none ∧
    (preflight configured card (userCallback callback)).1.read
        (preflight configured card (userCallback callback)).1.defaults = defaults :=
  have h := preflight_leaves_configuration configured card (userCallback callback)
    (by decide) (by decide)
  ⟨by decide, by decide, h.2.2.2.1, by decide, h.2.2.2.2⟩

/-! ## Setters and getters -/

/-- After a setter the live configuration is the one before it with the key written. -/
theorem Module.live_set (m : Module) (a : Assignment) :
    (m.set a).live = m.live.assign a := by
  simp [Module.set, Module.merge, Module.write, Module.read, Module.live]

/-- C14: set-then-get round trip with frame. For every module state and every
assignment of a value `v` to a key `f` through its setter: the getter of `f` returns
`v`, the live options object is the one before the write with `f` holding `v`, and the
getter of every other key returns what it returned before the write. -/
theorem set_then_get (m : Module) (a : Assignment) :
    (m.set a).get a.field = a.value ∧
      (m.set a).live = m.live.assign a ∧
      (∀ f : Field, f ≠ a.field → (m.set a).get f = m.get f) ∧
      (m.set a).live.headers = m.live.headers := by
  refine ⟨?_, Module.live_set m a, ?_, ?_⟩
  · cases a with
    | timeout v =>
      cases v <;>
        simp [Module.get, Module.live_set, Options.assign, Assignment.field, Assignment.value]
    | gzip v =>
      cases v <;>
        simp [Module.get, Module.live_set, Options.assign, Assignment.field, Assignment.value]
    | baseUrl v =>
      simp [Module.get, Module.live_set, Options.assign, Assignment.field, Assignment.value]
    | uri v =>
      simp [Module.get, Module.live_set, Options.assign, Assignment.field, Assignment.value]
    | token v =>
      simp [Module.get, Module.live_set, Options.assign, Assignment.field, Assignment.value]
  · intro f hf
    cases a <;> cases f <;>
      simp_all [Module.get, Module.live_set, Options.assign, Assignment.field]
  · rw [Module.live_set]
    cases a <;> rfl

/-- After `sync.timeout = 5000` on the configured module the getter of `timeout` returns
5000 and the getter of `baseUrl` what it returned before. -/
theorem set_then_get_witness :
    Field.baseUrl ≠ (Assignment.timeout (some 5000)).field ∧
    (configured.set (.timeout (some 5000))).get .timeout = .num 5000 ∧
    (configured.set (.timeout (some 5000))).get .baseUrl = configured.get .baseUrl ∧
    (configured.set (.timeout (some 5000))).get .baseUrl = .str "http://localhost" :=
  have h := set_then_get configured (.timeout (some 5000))
  ⟨by decide, h.1, h.2.2.1 .baseUrl (by decide), rfl⟩

/-! ## The timeout -/

/-- C15: on the configured module, whose timeout is the default 600000, the request that
`post` and `patch` hand to the HTTP client carries no timeout: the key is not among the
request options they build. -/
theorem post_patch_request_without_timeout :
    configured.live.timeout = some 600000 ∧
    (post configured card callback ⟨.null, responseWith 201, card⟩).2.requests.map
        (fun r => r.options.timeout) = [none] ∧
    (patch configured card callback ⟨.null, responseWith 200, card⟩).2.requests.map
        (fun r => r.options.timeout) = [none] :=
  ⟨by decide, by decide, by decide⟩

/-! ## A completion without error and without response -/

/-- C16: on the configured module, when the HTTP client completes with neither a
transport error nor a response, the handlers of `post` and of `patch` end in a
`TypeError` (the read of `response.statusCode`) after the request was made, and the
callback is never called. -/
theorem post_patch_throw_without_response :
    (post configured card callback silent).2.requests.length = 1 ∧
    (post configured card callback silent).2.calls = [] ∧
    (post configured card callback silent).2.thrown = some .typeError ∧
    (patch configured card callback silent).2.requests.length = 1 ∧
    (patch configured card callback silent).2.calls = [] ∧
    (patch configured card callback silent).2.thrown = some .typeError :=
  ⟨rfl, rfl, rfl, rfl, rfl, rfl⟩

/-! ## The payload omitted -/

/-- On the empty mapping `preflight` answers with one error, the payload error when the
configuration passes the three checks. -/
theorem preflight_empty_mapping (m : Module) (cb : JsValue) :
    ∃ message : String,
      (preflight m (.obj [] []) (userCallback cb)).2 =
          invoke cb [.value (newError message)] ∧
        (isEmpty (ofString m.live.baseUrl) = false →
          isEmpty (ofString m.live.uri) = false →
          isEmpty (ofString m.live.token) = false →
          message = "Missing Service Request Data") := by
  have h1 : isFunction (JsValue.obj [] []) = false := rfl
  have h2 : ((JsValue.obj [] []).truthy && isFunction ((JsValue.obj [] []).get "toObject"))
      = false := rfl
  have h3 : isEmpty (JsValue.obj [] []) = true := rfl
  simp only [preflight_trace, h1, h2, h3, Bool.false_eq_true, if_false, if_true]
  split_ifs with hb hu ht
  · exact ⟨_, rfl, fun h => by rw [h] at hb; exact absurd hb (by decide)⟩
  · exact ⟨_, rfl, fun _ h => by rw [h] at hu; exact absurd hu (by decide)⟩
  · exact ⟨_, rfl, fun _ _ h => by rw [h] at ht; exact absurd ht (by decide)⟩
  · exact ⟨_, rfl, fun _ _ _ => rfl⟩

/-- C17: when the first argument is a function, the payload being omitted, `post` and
`preflight` behave as `preflight` on the empty mapping `{}` with that function as the
callback, whatever the second argument is: no request is made, nothing is thrown, and
the function is called exactly once, with one argument, the preflight error, which is
`Missing Service Request Data` when baseUrl, uri and token are all non-empty. -/
theorem payload_omitted (m : Module) (cb done : JsValue) (c : Completion)
    (hcb : isFunction cb = true) :
    (post m cb done c).2 = (preflight m (.obj [] []) (userCallback cb)).2 ∧
      (∀ done' : PreflightCallback,
        (preflight m cb done').2 = (preflight m (.obj [] []) (userCallback cb)).2) ∧
      (post m cb done c).2.requests = [] ∧
      (post m cb done c).2.thrown = none ∧
      (∃ error : JsValue, (post m cb done c).2.calls = [⟨cb, [.value error]⟩]) ∧
      (isEmpty (ofString m.live.baseUrl) = false →
        isEmpty (ofString m.live.uri) = false →
        isEmpty (ofString m.live.token) = false →
        (post m cb done c).2.calls =
          [⟨cb, [.value (newError "Missing Service Request Data")]⟩]) := by
  have hpre : ∀ done' : PreflightCallback,
      (preflight m cb done').2 = (preflight m (.obj [] []) (userCallback cb)).2 := by
    intro done'
    have h1 : isFunction (JsValue.obj [] []) = false := rfl
    have h2 : ((JsValue.obj [] []).truthy &&
        isFunction ((JsValue.obj [] []).get "toObject")) = false := rfl
    have h3 : isEmpty (JsValue.obj [] []) = true := rfl
    simp only [preflight_trace, hcb, h1, h2, h3, Bool.false_eq_true, if_false, if_true]
  have hpost : (post m cb done c).2 = (preflight m (.obj [] []) (userCallback cb)).2 :=
    hpre _
  obtain ⟨message, hmessage, hvalid⟩ := preflight_empty_mapping m cb
  have htrace : (post m cb done c).2 =
      { requests := [], calls := [⟨cb, [.value (newError message)]⟩], thrown := none } := by
    rw [hpost, hmessage, invoke, if_pos hcb]
  refine ⟨hpost, hpre, ?_, ?_, ⟨newError message, ?_⟩, ?_⟩
  · rw [htrace]
  · rw [htrace]
  · rw [htrace]
  · intro hb hu ht
    rw [htrace, hvalid hb hu ht]

/-- The test `should throw Missing Service Request Data if none defined`:
`sync.post(done)` on the configured module. -/
theorem payload_omitted_witness :
    isFunction callback = true ∧
    (post configured callback .undefined ⟨.null, responseWith 201, card⟩).2 =
      { requests := []
        calls := [⟨callback, [.value (newError "Missing Service Request Data")]⟩]
        thrown := none } ∧
    (post configured callback .undefined ⟨.null, responseWith 201, card⟩).2.calls =
      [⟨callback, [.value (newError "Missing Service Request Data")]⟩] :=
  ⟨by decide, rfl,
    (payload_omitted configured callback .undefined ⟨.null, responseWith 201, card⟩
      (by decide)).2.2.2.2.2 (by decide) (by decide) (by decide)⟩

/-! ## The `toObject` function is what is tested for emptiness -/

theorem JsValue.truthy_of_get_function (v : JsValue) (key : String)
    (h : isFunction (v.get key) = true) : v.truthy = true := by
  cases v <;> simp_all [JsValue.get, JsValue.truthy, isFunction]

/-- C18, as stated, fails: on the configured module, for a document whose `toObject`
function carries an own enumerable property, `preflight` does not fail; the function is
not empty, the callback receives `null` and the options, and `post` and `patch` hand a
request with the document itself to the HTTP client. -/
theorem preflight_accepts_stubbed_toObject :
    isEmpty (ofString configured.live.baseUrl) = false ∧
    isEmpty (ofString configured.live.uri) = false ∧
    isEmpty (ofString configured.live.token) = false ∧
    isFunction (stubbed.get "toObject") = true ∧
    (preflight configured stubbed (userCallback callback)).2.calls ≠
      [⟨callback, [.value (newError "Missing Service Request Data")]⟩] ∧
    (post configured stubbed callback ⟨.null, responseWith 201, card⟩).2.requests.map
        (fun r => r.method) = [.post] ∧
    (patch configured stubbed callback ⟨.null, responseWith 200, card⟩).2.requests.map
        (fun r => r.method) = [.patch] := by
  refine ⟨by decide, by decide, by decide, by decide, ?_, by decide, by decide⟩
  have hcalls : (preflight configured stubbed (userCallback callback)).2.calls =
      [⟨callback, [.value .null, .options
        { timeout := some 600000
          gzip := some true
          baseUrl := some "http://localhost"
          uri := some "/servicerequests"
          token := some "secret"
          headers := some [("Authorization", "Bearer secret"),
            ("Accept", "application/json")] }]⟩] := rfl
  rw [hcalls]
  simp

/-- C18, amended: on a configuration with non-empty baseUrl, uri and token, for every
payload object that exposes a `toObject` function without own enumerable properties
(whatever that function returns and whatever else the payload holds), `preflight` fails
with `Missing Service Request Data`, the function itself being what is tested for
emptiness, and `post` and `patch` make no request and call `done` with that error. -/
theorem toObject_payload_rejected (m : Module) (data done : JsValue) (c : Completion)
    (hb : isEmpty (ofString m.live.baseUrl) = false)
    (hu : isEmpty (ofString m.live.uri) = false)
    (ht : isEmpty (ofString m.live.token) = false)
    (hfn : isFunction data = false)
    (hto : isFunction (data.get "toObject") = true)
    (hbare : isEmpty (data.get "toObject") = true)
    (hdone : isFunction done = true) :
    (preflight m data (userCallback done)).2 =
        { requests := []
          calls := [⟨done, [.value (newError "Missing Service Request Data")]⟩]
          thrown := none } ∧
      (post m data done c).2 =
        { requests := []
          calls := [⟨done, [.value (newError "Missing Service Request Data")]⟩]
          thrown := none } ∧
      (patch m data done c).2 =
        { requests := []
          calls := [⟨done, [.value (newError "Missing Service Request Data")]⟩]
          thrown := none } := by
  have htruthy := JsValue.truthy_of_get_function data "toObject" hto
  unfold post patch
  simp only [preflight_trace, hb, hu, ht, hfn, hto, hbare, htruthy, Bool.false_eq_true,
    if_false, if_true, Bool.and_self, newError_truthy, userCallback, invoke, hdone, and_self]

/-- The document of an ODM, whose `toObject` is a plain method, is rejected. -/
theorem toObject_payload_rejected_witness :
    isEmpty (ofString configured.live.baseUrl) = false ∧
    isEmpty (ofString configured.live.uri) = false ∧
    isEmpty (ofString configured.live.token) = false ∧
    isFunction document = false ∧
    isFunction (document.get "toObject") = true ∧
    isEmpty (document.get "toObject") = true ∧
    isFunction callback = true ∧
    (preflight configured document (userCallback callback)).2 =
      { requests := []
        calls := [⟨callback, [.value (newError "Missing Service Request Data")]⟩]
        thrown := none } :=
  ⟨by decide, by decide, by decide, by decide, by decide, by decide, by decide,
    (toObject_payload_rejected configured document callback ⟨.null, responseWith 201, card⟩
      (by decide) (by decide) (by decide) (by decide) (by decide) (by decide)
      (by decide)).1⟩

end Open311ApiSync
